import Mathlib

/-!
Shallow embedding of the scoring, readiness and recommendation engine of the
skills-advisor backend (backend/app/main.py), together with theorems checking
the specification claims against it.

Python floats are modelled by exact rationals; Python `round(x, 1)` is
modelled by round-half-to-even at one decimal; the `HTTPException`s raised by
the endpoints are modelled by an explicit error type.
-/

namespace SkillsAdvisor

/-- Python `s.lower()` on the character list (ASCII lowercasing, as the
skill identifiers of the taxonomy are ASCII). -/
def lowerChars (l : List Char) : List Char := l.map Char.toLower

/-- Python `s.strip()` on the character list: drop leading and trailing
whitespace. -/
def stripChars (l : List Char) : List Char :=
  ((l.dropWhile Char.isWhitespace).reverse.dropWhile Char.isWhitespace).reverse

/-- Normalization applied to every skill string before comparison:
`s.lower().strip()` in the source. -/
def pyNorm (s : String) : String := ⟨stripChars (lowerChars s.data)⟩

/-- Occurrence test of a character list inside another at any position. -/
def subListOf (needle : List Char) : List Char → Bool
  | [] => needle.isEmpty
  | c :: t => needle.isPrefixOf (c :: t) || subListOf needle t

/-- Python substring test `needle in hay`. -/
def strContains (hay needle : String) : Bool := subListOf needle.data hay.data

/-- Round-half-to-even to the nearest integer, as Python `round` does. -/
def roundHalfEven (q : ℚ) : ℤ :=
  let n := ⌊q⌋
  let f := q - (n : ℚ)
  if f < 1/2 then n
  else if 1/2 < f then n + 1
  else if n % 2 = 0 then n else n + 1

/-- Python `round(q, 1)`: round half to even at one decimal place. -/
def pyRound1 (q : ℚ) : ℚ := (roundHalfEven (10 * q) : ℚ) / 10

/-- The three skill tiers of `skills_required` in the careers ontology. -/
structure SkillsRequired where
  L1 : List String
  L2 : List String
  L3 : List String
deriving Repr, DecidableEq

/-- A career entry of the ontology; `skills_required` is `none` when the key
is absent or the dict is empty (falsy in the source); `salary_junior` models
`salary_range_inr.junior`. -/
structure Career where
  id : String
  title : String
  skills_required : Option SkillsRequired
  salary_junior : Option String
deriving Repr, DecidableEq

/-- A market entry; `demand_score` is `none` when the key is missing. -/
structure MarketInfo where
  demand_score : Option ℚ
deriving Repr, DecidableEq

/-- The user profile accepted by the assess and recommend endpoints. -/
structure ProfileInput where
  interests : List String
  skills : List String
  hours_per_week : Nat
  budget_inr_per_month : Nat
  city : String
  learning_style : String
  goal_text : String
  experience_level : String
deriving Repr, DecidableEq

/-- Errors raised by the endpoints: HTTP 404 and HTTP 500 respectively. -/
inductive ApiError where
  | notFound (career_id : String)
  | serverError (detail : String)
deriving Repr, DecidableEq

/-- Normalized copy of a skill list (the source normalizes via comprehensions
over the raw lists). -/
def normSet (skills : List String) : List String := skills.map pyNorm

/-- Count of required skills present in the user set:
`len([s for s in required_skills if s in user_skills_lower])`. -/
def matchedCount (userSet : List String) (required : List String) : Nat :=
  (required.filter (fun s => userSet.contains s)).length

/-- Required skills absent from the user set:
`[s for s in required_skills if s not in user_skills_lower]`. -/
def missingList (userSet : List String) (required : List String) : List String :=
  required.filter (fun s => !(userSet.contains s))

/-- Embedding of `_career_by_id`: first career whose id matches. -/
def career_by_id (careers : List Career) (cid : String) : Option Career :=
  careers.find? (fun c => c.id == cid)

/-- `career.get("skills_required", {})` with empty tiers for a missing key. -/
def requiredSkills (career : Career) : SkillsRequired :=
  career.skills_required.getD ⟨[], [], []⟩

/-- Accumulated value of `total_weight` after the loop of
`_skill_match_score`: tier sizes weighted L1=3, L2=2, L3=1. -/
def total_weight (sr : SkillsRequired) : Nat :=
  (normSet sr.L1).length * 3 + (normSet sr.L2).length * 2 + (normSet sr.L3).length * 1

/-- Accumulated value of `matched_weight` after the loop of
`_skill_match_score`: per-tier matched counts weighted L1=3, L2=2, L3=1. -/
def matched_weight (user_skills : List String) (sr : SkillsRequired) : Nat :=
  matchedCount (normSet user_skills) (normSet sr.L1) * 3 +
    matchedCount (normSet user_skills) (normSet sr.L2) * 2 +
    matchedCount (normSet user_skills) (normSet sr.L3) * 1

/-- Embedding of `_skill_match_score`: tier-weighted match fraction with
weights L1=3, L2=2, L3=1, zero when no skills are required. -/
def skill_match_score (user_skills : List String) (career : Career) : ℚ :=
  match career.skills_required with
  | none => 0
  | some sr =>
      if 0 < total_weight sr
      then (matched_weight user_skills sr : ℚ) / (total_weight sr : ℚ)
      else 0

/-- Embedding of `_hours_score`: step function of weekly learning hours. -/
def hours_score (hours : Nat) : ℚ :=
  if hours ≤ 3 then 0.3
  else if hours ≤ 6 then 0.6
  else if hours ≤ 10 then 0.8
  else 1.0

/-- Lookup of `MARKET.get(cid, ...)` over the market table. -/
def marketFind (market : List (String × MarketInfo)) (cid : String) : Option MarketInfo :=
  (market.find? (fun p => p.1 == cid)).map Prod.snd

/-- Embedding of `_market_score`: demand/10 clamped to [0,1], with default
demand 5.0 when the career or its demand score is missing. -/
def market_score (market : List (String × MarketInfo)) (cid : String) : ℚ :=
  let info := (marketFind market cid).getD ⟨none⟩
  let demand := info.demand_score.getD 5
  max 0 (min 1 (demand / 10))

/-- Embedding of `_confidence_score`: weighted blend of the four factors,
scaled to a percentage and rounded to one decimal. -/
def confidence_score (skill_match market hours interests_match : ℚ) : ℚ :=
  pyRound1 ((0.4 * skill_match + 0.25 * market + 0.2 * hours + 0.15 * interests_match) * 100)

/-- Missing skills keyed by tier, as the `missing_by_level` dict. -/
structure MissingByLevel where
  L1 : List String
  L2 : List String
  L3 : List String
deriving Repr, DecidableEq

/-- Return value of `_readiness_and_missing`: the rounded readiness
percentage, the priority list, and the per-tier missing lists. -/
structure ReadinessResult where
  readiness_pct : ℚ
  priority_missing : List String
  missing_by_level : MissingByLevel
deriving Repr, DecidableEq

/-- Missing skills of one tier: the normalized required list filtered to the
entries absent from the normalized user set. -/
def levelMissing (user_skills : List String) (required : List String) : List String :=
  missingList (normSet user_skills) (normSet required)

/-- Accumulated value of `total_required` after the loop of
`_readiness_and_missing`: unweighted count of declared skills. -/
def total_required (sr : SkillsRequired) : Nat :=
  (normSet sr.L1).length + (normSet sr.L2).length + (normSet sr.L3).length

/-- Accumulated value of `total_have` after the loop of
`_readiness_and_missing`: per tier, required minus missing. -/
def total_have (user_skills : List String) (sr : SkillsRequired) : Nat :=
  ((normSet sr.L1).length - (levelMissing user_skills sr.L1).length) +
    ((normSet sr.L2).length - (levelMissing user_skills sr.L2).length) +
    ((normSet sr.L3).length - (levelMissing user_skills sr.L3).length)

/-- Embedding of `_readiness_and_missing`: unweighted held/required fraction
as a percentage rounded to one decimal, per-tier missing lists, and the first
three missing L1 skills as the priority list. -/
def readiness_and_missing (user_skills : List String) (career : Career) : ReadinessResult :=
  let sr := requiredSkills career
  let readiness : ℚ :=
    if 0 < total_required sr
    then (total_have user_skills sr : ℚ) / (total_required sr : ℚ) * 100
    else 0
  { readiness_pct := pyRound1 readiness
    priority_missing := (levelMissing user_skills sr.L1).take 3
    missing_by_level :=
      ⟨levelMissing user_skills sr.L1, levelMissing user_skills sr.L2,
        levelMissing user_skills sr.L3⟩ }

/-- One ranked recommendation, with the fields the engine computes
(`market_note`, a display-formatted string, is not modelled). -/
structure RecommendationItem where
  career_id : String
  title : String
  rationale : String
  confidence_pct : ℚ
  readiness_pct : ℚ
  missing_skills : List String
  alternatives : List String
  estimated_timeline_months : Nat
  salary_range : String
deriving Repr, DecidableEq

/-- The static `career_keywords` table of `get_recommendations`, with the
empty default of `.get`. -/
def careerKeywords (cid : String) : List String :=
  if cid = "data_analyst" then ["data", "numbers", "analysis"]
  else if cid = "ui_ux_designer" then ["design", "ui", "ux", "visual"]
  else if cid = "cybersecurity_analyst" then ["security", "cyber", "protect"]
  else []

/-- Interest match of `get_recommendations`: 0.8 when any keyword of the
career occurs in the joined lowercased interest text, else 0.3. -/
def interest_match_score (interests_text : String) (cid : String) : ℚ :=
  if (careerKeywords cid).any (fun k => strContains interests_text k) then 0.8 else 0.3

/-- The `_get_enhanced_alternatives` table keyed on substrings of the title. -/
def enhanced_alternatives (career : Career) : List String :=
  let t : String := ⟨lowerChars career.title.data⟩
  if strContains t "data" && strContains t "analyst" then
    ["Business Intelligence Analyst", "Marketing Analyst", "Financial Analyst"]
  else if strContains t "designer" then
    ["Product Designer", "Visual Designer", "UX Researcher"]
  else if strContains t "cybersecurity" || strContains t "security" then
    ["Network Security Specialist", "Cloud Security Engineer", "Compliance Analyst"]
  else
    ["Related internship roles", "Freelance opportunities", "Certification programs"]

/-- Body of the per-career loop of `get_recommendations`: scores one career
and builds its recommendation item. -/
def scoreCareer (market : List (String × MarketInfo)) (profile : ProfileInput)
    (career : Career) : RecommendationItem :=
  let skill_match := skill_match_score profile.skills career
  let hours := hours_score profile.hours_per_week
  let mscore := market_score market career.id
  let interests_text : String := ⟨lowerChars (String.intercalate " " profile.interests).data⟩
  let interest_match := interest_match_score interests_text career.id
  let confidence := confidence_score skill_match mscore hours interest_match
  let r := readiness_and_missing profile.skills career
  let rationale := String.intercalate " "
    ((if 70 ≤ confidence then ["Strong alignment with your profile."]
      else if 50 ≤ confidence then ["Good potential match with some skill building."]
      else ["Emerging opportunity requiring focused learning."]) ++
     (if 8 ≤ profile.hours_per_week then ["Your time commitment supports rapid progress."]
      else []))
  let timeline : Nat :=
    if 70 ≤ r.readiness_pct then 3 else if 40 ≤ r.readiness_pct then 4 else 8
  { career_id := career.id
    title := career.title
    rationale := rationale
    confidence_pct := confidence
    readiness_pct := r.readiness_pct
    missing_skills := r.priority_missing
    alternatives := enhanced_alternatives career
    estimated_timeline_months := timeline
    salary_range := career.salary_junior.getD "4-7 LPA" }

/-- Sort key of `items.sort`: the `(confidence_pct, readiness_pct)` pair. -/
def itemKey (it : RecommendationItem) : ℚ × ℚ := (it.confidence_pct, it.readiness_pct)

/-- Lexicographic strict order on sort keys. -/
def pairLt (p q : ℚ × ℚ) : Prop := p.1 < q.1 ∨ (p.1 = q.1 ∧ p.2 < q.2)

instance (p q : ℚ × ℚ) : Decidable (pairLt p q) := by
  unfold pairLt
  infer_instance

/-- Stable insertion into a list sorted descending by key: the new item goes
after every earlier item whose key is not strictly smaller, as Python's
stable `list.sort(reverse=True)` orders equal keys. -/
def insertItem (x : RecommendationItem) : List RecommendationItem → List RecommendationItem
  | [] => [x]
  | y :: ys => if pairLt (itemKey y) (itemKey x) then x :: y :: ys else y :: insertItem x ys

/-- Stable descending sort by `(confidence_pct, readiness_pct)`, the effect
of `items.sort(key=..., reverse=True)`. -/
def sortItemsDesc (l : List RecommendationItem) : List RecommendationItem :=
  l.foldl (fun acc x => insertItem x acc) []

/-- Embedding of the `/recommend` endpoint `get_recommendations`: HTTP 500
on an empty career table, otherwise every career scored, sorted descending by
`(confidence_pct, readiness_pct)` and truncated to the top 3. -/
def get_recommendations (market : List (String × MarketInfo)) (profile : ProfileInput)
    (careers : List Career) : Except ApiError (List RecommendationItem) :=
  if careers.isEmpty then .error (.serverError "Career data not available")
  else .ok ((sortItemsDesc (careers.map (scoreCareer market profile))).take 3)

/-- Request of the `/gap` endpoint. -/
structure GapRequest where
  career_id : String
  skills : List String
deriving Repr, DecidableEq

/-- Response of the `/gap` endpoint. -/
structure GapResponse where
  career_id : String
  career_title : String
  readiness_pct : ℚ
  missing_by_level : MissingByLevel
  priority_skills : List String
  estimated_time_to_ready : String
deriving Repr, DecidableEq

/-- Embedding of the `/gap` endpoint `analyze_skill_gap`: HTTP 404 for an
unknown career id, otherwise readiness, missing lists and a coarse
time-to-ready bucket keyed on the total missing count. -/
def analyze_skill_gap (careers : List Career) (req : GapRequest) :
    Except ApiError GapResponse :=
  match career_by_id careers req.career_id with
  | none => .error (.notFound req.career_id)
  | some career =>
      let r := readiness_and_missing req.skills career
      let total_missing := r.missing_by_level.L1.length + r.missing_by_level.L2.length +
        r.missing_by_level.L3.length
      let time_estimate :=
        if total_missing ≤ 3 then "2-3 months"
        else if total_missing ≤ 6 then "4-6 months"
        else "6-12 months"
      .ok { career_id := req.career_id
            career_title := career.title
            readiness_pct := r.readiness_pct
            missing_by_level := r.missing_by_level
            priority_skills := r.priority_missing
            estimated_time_to_ready := time_estimate }

/-- Request of the `/roadmap` endpoint. -/
structure RoadmapRequest where
  career_id : String
  hours_per_week : Nat
  budget_inr_per_month : Nat
  learning_style : String
  current_skills : List String
deriving Repr, DecidableEq

/-- One learning resource dict: type, name and cost display strings. -/
structure Resource where
  type : String
  name : String
  cost : String
deriving Repr, DecidableEq

/-- One week of the generated roadmap. -/
structure RoadmapWeek where
  week : Nat
  focus : String
  resources : List Resource
  practice : String
  mini_project : String
  time_allocation : String
deriving Repr, DecidableEq

/-- Response of the `/roadmap` endpoint. -/
structure RoadmapResponse where
  career_id : String
  career_title : String
  weeks : List RoadmapWeek
  interview_questions : List String
  resume_bullets : List String
  total_estimated_cost : String
  success_metrics : List String
deriving Repr, DecidableEq

/-- Embedding of `_generate_enhanced_resources`: two placeholders picked on
the zero/non-zero budget branch, plus one free project entry appended for the
hands-on learning style. -/
def generate_enhanced_resources (focus : String) (budget : Nat) (learning_style : String) :
    List Resource :=
  let base : List Resource :=
    if budget = 0 then
      [⟨"Video", "YouTube: " ++ focus ++ " fundamentals", "Free"⟩,
       ⟨"Practice", "Free online exercises for " ++ focus, "Free"⟩]
    else
      [⟨"Course", "Udemy/Coursera: " ++ focus ++ " course", "₹500-1500"⟩,
       ⟨"Book", "Recommended book on " ++ focus, "₹300-800"⟩]
  if learning_style = "Hands-on practice" then
    base ++ [⟨"Project", "Build a " ++ focus ++ " project", "Free"⟩]
  else base

/-- The `roadmap_templates` table with its generic eight-label fallback. -/
def roadmap_templates (cid : String) : List String :=
  if cid = "data_analyst" then
    ["Excel & Data Fundamentals", "SQL Basics & Practice", "Statistics & Analytics",
     "Python & Pandas", "Data Visualization", "Business Context & Storytelling",
     "Dashboard Building", "Portfolio & Interview Prep"]
  else if cid = "ui_ux_designer" then
    ["UX Principles & Research", "Figma Basics", "Wireframing & User Flows",
     "Visual Design Fundamentals", "Prototyping & Testing", "Design Systems",
     "Advanced Figma & Handoff", "Portfolio & Case Studies"]
  else if cid = "cybersecurity_analyst" then
    ["Networking & Linux Basics", "Security Fundamentals", "SIEM Tools Introduction",
     "Threat Detection Basics", "Incident Response", "Scripting for Security",
     "Vulnerability Assessment", "Certification Prep & Portfolio"]
  else
    ["Fundamentals", "Core Skills", "Practice", "Projects", "Advanced Topics",
     "Specialization", "Real-world Application", "Career Preparation"]

/-- The week list of `generate_roadmap`: `enumerate(focus_areas, 1)` mapped
to week records. -/
def buildWeeks (req : RoadmapRequest) (focus_areas : List String) : List RoadmapWeek :=
  (List.enumFrom 1 focus_areas).map (fun p =>
    { week := p.1
      focus := p.2
      resources := generate_enhanced_resources p.2 req.budget_inr_per_month req.learning_style
      practice := "Complete 3-4 hands-on exercises for " ++ p.2 ++
        ". Join online communities for peer learning."
      mini_project := "Build a mini-project demonstrating " ++ p.2 ++
        ". Document your learning process."
      time_allocation := toString req.hours_per_week ++ " hours spread across 4-5 days" })

/-- The successful response body of `generate_roadmap` for a found career:
the eight-week template expansion. -/
def roadmapResponse (career : Career) (req : RoadmapRequest) : RoadmapResponse :=
  let focus_areas := roadmap_templates req.career_id
  let weeks := buildWeeks req focus_areas
  { career_id := req.career_id
    career_title := career.title
    weeks := weeks
    interview_questions :=
      ["Walk me through a recent project and the challenges you overcame.",
       "How do you approach learning new technologies in this field?",
       "Describe a time when you had to explain technical concepts to a non-technical audience.",
       "What interests you most about this role and our company?",
       "How do you stay updated with industry trends and best practices?"]
    resume_bullets :=
      ["Completed intensive 8-week " ++ career.title ++ " program with hands-on projects",
       "Built portfolio of " ++ toString weeks.length ++
         " projects demonstrating proficiency in key tools",
       "Developed practical skills in " ++
         String.intercalate ", " ((requiredSkills career).L1.take 3)]
    total_estimated_cost := "₹" ++ toString (req.budget_inr_per_month * 2) ++ "-" ++
      toString (req.budget_inr_per_month * 2 + 3000)
    success_metrics :=
      ["Complete all " ++ toString weeks.length ++ " weekly projects",
       "Build a portfolio with 3+ substantial projects",
       "Pass mock interviews with 70%+ confidence",
       "Network with 10+ professionals in the field"] }

/-- Embedding of the `/roadmap` endpoint `generate_roadmap`: HTTP 404 for an
unknown career id, otherwise the eight-week template expansion. -/
def generate_roadmap (careers : List Career) (req : RoadmapRequest) :
    Except ApiError RoadmapResponse :=
  match career_by_id careers req.career_id with
  | none => .error (.notFound req.career_id)
  | some career => .ok (roadmapResponse career req)

/-! Spec-side formulations, written from the specification text, to be
compared with the embedded source functions. -/

/-- Unweighted number of skills a career declares across its three tiers. -/
def declaredSkillCount (career : Career) : Nat :=
  (requiredSkills career).L1.length + (requiredSkills career).L2.length +
    (requiredSkills career).L3.length

/-- The skillMatch formula as the specification words it: per tier with
weights 3/2/1, `len(tier) * weight` into the denominator and
`(count present) * weight` into the numerator, 0.0 for a career declaring
zero required skills. -/
def skillMatchSpec (user_skills : List String) (career : Career) : ℚ :=
  let sr := requiredSkills career
  let total := sr.L1.length * 3 + sr.L2.length * 2 + sr.L3.length * 1
  let matched := matchedCount (normSet user_skills) (normSet sr.L1) * 3 +
    matchedCount (normSet user_skills) (normSet sr.L2) * 2 +
    matchedCount (normSet user_skills) (normSet sr.L3) * 1
  if total = 0 then 0 else (matched : ℚ) / (total : ℚ)

/-- Unweighted number of required skills the user holds, summed over tiers,
counted directly as the specification describes readiness. -/
def haveCountSpec (user_skills : List String) (career : Career) : Nat :=
  matchedCount (normSet user_skills) (normSet (requiredSkills career).L1) +
    matchedCount (normSet user_skills) (normSet (requiredSkills career).L2) +
    matchedCount (normSet user_skills) (normSet (requiredSkills career).L3)

/-- Missing list of one tier as the specification words it: the normalized
declared skills, in declared order, that are not in the normalized user
set. -/
def missingSpec (user_skills : List String) (required : List String) : List String :=
  (required.map pyNorm).filter (fun s => decide (s ∉ user_skills.map pyNorm))

/-- The two budget-dependent resource placeholders as the specification
describes them: free video and practice entries on a zero budget, priced
course and book entries otherwise. -/
def specBudgetResources (budget : Nat) (focus : String) : List Resource :=
  if budget = 0 then
    [⟨"Video", "YouTube: " ++ focus ++ " fundamentals", "Free"⟩,
     ⟨"Practice", "Free online exercises for " ++ focus, "Free"⟩]
  else
    [⟨"Course", "Udemy/Coursera: " ++ focus ++ " course", "₹500-1500"⟩,
     ⟨"Book", "Recommended book on " ++ focus, "₹300-800"⟩]

/-- The free project resource appended for the hands-on learning style. -/
def specProjectResource (focus : String) : Resource :=
  ⟨"Project", "Build a " ++ focus ++ " project", "Free"⟩

/-! Sample data for concrete checks. -/

/-- The career of the concrete scenario of the specification:
L1=[a,b,c], L2=[d,e], L3=[f]. -/
def sampleCareer : Career :=
  { id := "x", title := "X",
    skills_required := some ⟨["a", "b", "c"], ["d", "e"], ["f"]⟩,
    salary_junior := none }

/-- A default profile with no interests and no skills. -/
def sampleProfile : ProfileInput :=
  { interests := [], skills := [], hours_per_week := 5, budget_inr_per_month := 0,
    city := "Other", learning_style := "Videos", goal_text := "",
    experience_level := "Beginner" }

/-- A career declaring zero required skills. -/
def noSkillsCareer : Career :=
  { id := "y", title := "Y", skills_required := none, salary_junior := none }

/-- A roadmap request with a non-zero budget and a non-hands-on style. -/
def paidReq : RoadmapRequest :=
  { career_id := "x", hours_per_week := 5, budget_inr_per_month := 500,
    learning_style := "Videos", current_skills := [] }

/-- A zero-budget roadmap request with the hands-on learning style. -/
def handsOnReq : RoadmapRequest :=
  { career_id := "x", hours_per_week := 5, budget_inr_per_month := 0,
    learning_style := "Hands-on practice", current_skills := [] }

/-! Helper lemmas. -/

theorem skill_match_score_of_some {c : Career} {sr : SkillsRequired} (us : List String)
    (h : c.skills_required = some sr) :
    skill_match_score us c =
      if 0 < total_weight sr
      then (matched_weight us sr : ℚ) / (total_weight sr : ℚ) else 0 := by
  unfold skill_match_score
  rw [h]

theorem readiness_pct_def (us : List String) (c : Career) :
    (readiness_and_missing us c).readiness_pct =
      pyRound1 (if 0 < total_required (requiredSkills c)
        then (total_have us (requiredSkills c) : ℚ) / (total_required (requiredSkills c) : ℚ) * 100
        else 0) := rfl

theorem priority_missing_def (us : List String) (c : Career) :
    (readiness_and_missing us c).priority_missing =
      (levelMissing us (requiredSkills c).L1).take 3 := rfl

theorem missing_by_level_def (us : List String) (c : Career) :
    (readiness_and_missing us c).missing_by_level =
      ⟨levelMissing us (requiredSkills c).L1, levelMissing us (requiredSkills c).L2,
        levelMissing us (requiredSkills c).L3⟩ := rfl

theorem matchedCount_add_missing (userSet req : List String) :
    matchedCount userSet req + (missingList userSet req).length = req.length := by
  unfold matchedCount missingList
  induction req with
  | nil => rfl
  | cons a t ih =>
      by_cases h : userSet.contains a = true
      · simp only [List.filter_cons, h, Bool.not_true, if_pos, if_neg, List.length_cons,
          Bool.false_eq_true, if_false]
        omega
      · rw [Bool.not_eq_true] at h
        simp only [List.filter_cons, h, Bool.not_false, Bool.false_eq_true, if_false, if_pos,
          List.length_cons]
        omega

theorem contains_append_one (l : List String) (z s : String) (h : l.contains s = true) :
    (l ++ [z]).contains s = true := by
  rw [List.contains_eq_any_beq] at h ⊢
  rw [List.any_append]
  rw [h]
  rfl

theorem contains_eq_decide_mem (l : List String) (a : String) :
    l.contains a = decide (a ∈ l) := by
  induction l with
  | nil => rfl
  | cons b t ih => simp [List.contains_cons, ih, List.mem_cons]

theorem matchedCount_mono_append (us : List String) (z : String) (req : List String) :
    matchedCount us req ≤ matchedCount (us ++ [z]) req := by
  unfold matchedCount
  rw [← List.countP_eq_length_filter, ← List.countP_eq_length_filter]
  exact List.countP_mono_left (fun x _ hx => contains_append_one us z x hx)

theorem pairLt_trans {a b c : ℚ × ℚ} (h1 : pairLt a b) (h2 : pairLt b c) : pairLt a c := by
  rcases h1 with h1 | ⟨e1, h1⟩ <;> rcases h2 with h2 | ⟨e2, h2⟩
  · exact Or.inl (lt_trans h1 h2)
  · exact Or.inl (e2 ▸ h1)
  · exact Or.inl (e1 ▸ h2)
  · exact Or.inr ⟨e1.trans e2, lt_trans h1 h2⟩

theorem pairLt_asymm {a b : ℚ × ℚ} (h : pairLt a b) : ¬ pairLt b a := by
  intro h2
  rcases pairLt_trans h h2 with h3 | ⟨_, h3⟩
  · exact lt_irrefl _ h3
  · exact lt_irrefl _ h3

/-- Descending order between adjacent sorted items: the earlier key is not
strictly below the later one. -/
def keyGE (a b : RecommendationItem) : Prop := ¬ pairLt (itemKey a) (itemKey b)

theorem insertItem_perm (x : RecommendationItem) (l : List RecommendationItem) :
    List.Perm (insertItem x l) (x :: l) := by
  induction l with
  | nil => exact List.Perm.refl _
  | cons y ys ih =>
      unfold insertItem
      by_cases h : pairLt (itemKey y) (itemKey x)
      · rw [if_pos h]
      · rw [if_neg h]
        exact (List.Perm.cons y ih).trans (List.Perm.swap x y ys)

theorem insertItem_pairwise (x : RecommendationItem) (l : List RecommendationItem)
    (h : l.Pairwise keyGE) : (insertItem x l).Pairwise keyGE := by
  induction l with
  | nil => simp [insertItem]
  | cons y ys ih =>
      rcases List.pairwise_cons.mp h with ⟨hy, hys⟩
      unfold insertItem
      by_cases hc : pairLt (itemKey y) (itemKey x)
      · rw [if_pos hc]
        refine List.pairwise_cons.mpr ⟨?_, h⟩
        intro z hz
        rcases List.mem_cons.mp hz with rfl | hz
        · exact pairLt_asymm hc
        · exact fun hxz => hy z hz (pairLt_trans hc hxz)
      · rw [if_neg hc]
        refine List.pairwise_cons.mpr ⟨?_, ih hys⟩
        intro z hz
        rcases List.mem_cons.mp ((insertItem_perm x ys).mem_iff.mp hz) with rfl | hz
        · exact hc
        · exact hy z hz

theorem foldlInsert_perm (l acc : List RecommendationItem) :
    List.Perm (l.foldl (fun a x => insertItem x a) acc) (acc ++ l) := by
  induction l generalizing acc with
  | nil => simp
  | cons x t ih =>
      simp only [List.foldl_cons]
      refine (ih (insertItem x acc)).trans ?_
      refine (List.Perm.append_right t (insertItem_perm x acc)).trans ?_
      exact List.perm_middle.symm

theorem foldlInsert_pairwise (l : List RecommendationItem) (acc : List RecommendationItem)
    (h : acc.Pairwise keyGE) :
    (l.foldl (fun a x => insertItem x a) acc).Pairwise keyGE := by
  induction l generalizing acc with
  | nil => simpa
  | cons x t ih =>
      simp only [List.foldl_cons]
      exact ih _ (insertItem_pairwise x acc h)

theorem sortItemsDesc_perm (l : List RecommendationItem) :
    List.Perm (sortItemsDesc l) l := by
  simpa using foldlInsert_perm l []

theorem sortItemsDesc_pairwise (l : List RecommendationItem) :
    (sortItemsDesc l).Pairwise keyGE :=
  foldlInsert_pairwise l [] List.Pairwise.nil

theorem career_by_id_isSome_iff (careers : List Career) (cid : String) :
    (career_by_id careers cid).isSome = true ↔ ∃ c ∈ careers, c.id = cid := by
  unfold career_by_id
  rw [List.find?_isSome]
  constructor
  · rintro ⟨c, hc, he⟩
    exact ⟨c, hc, by simpa using he⟩
  · rintro ⟨c, hc, he⟩
    exact ⟨c, hc, by simpa using he⟩

theorem career_by_id_eq_none_iff (careers : List Career) (cid : String) :
    career_by_id careers cid = none ↔ ¬ ∃ c ∈ careers, c.id = cid := by
  rw [← career_by_id_isSome_iff]
  cases career_by_id careers cid <;> simp

theorem roadmap_templates_length (cid : String) : (roadmap_templates cid).length = 8 := by
  unfold roadmap_templates
  split_ifs <;> rfl

theorem buildWeeks_length (req : RoadmapRequest) (fs : List String) :
    (buildWeeks req fs).length = fs.length := by
  unfold buildWeeks
  rw [List.length_map, List.enumFrom_length]

theorem roadmapResponse_weeks (career : Career) (req : RoadmapRequest) :
    (roadmapResponse career req).weeks =
      buildWeeks req (roadmap_templates req.career_id) := rfl

theorem generate_enhanced_resources_of_other_style (focus : String) (budget : Nat)
    (style : String) (h : style ≠ "Hands-on practice") :
    generate_enhanced_resources focus budget style = specBudgetResources budget focus := by
  unfold generate_enhanced_resources specBudgetResources
  simp only [if_neg h]

theorem generate_enhanced_resources_of_handson (focus : String) (budget : Nat) :
    generate_enhanced_resources focus budget "Hands-on practice" =
      specBudgetResources budget focus ++ [specProjectResource focus] := by
  unfold generate_enhanced_resources specBudgetResources specProjectResource
  simp

theorem specBudgetResources_length (budget : Nat) (focus : String) :
    (specBudgetResources budget focus).length = 2 := by
  unfold specBudgetResources
  split_ifs <;> rfl

/-! Claim theorems. -/

/-- C1: for every user skill list and every career, `skill_match_score`
normalizes skills (lowercase, trim) and returns matched weight over total
weight with per-tier weights L1=3, L2=2, L3=1 as the specification words it;
it returns 0.0 when the career declares zero required skills; and on the
concrete scenario L1=[a,b,c], L2=[d,e], L3=[f] with user skills [a,b] it
returns 6/14. -/
theorem skill_match_spec_correct :
    (∀ (us : List String) (c : Career), skill_match_score us c = skillMatchSpec us c) ∧
    (∀ (us : List String) (c : Career), declaredSkillCount c = 0 →
      skill_match_score us c = 0) ∧
    skill_match_score ["a", "b"] sampleCareer = 6 / 14 := by
  refine ⟨?_, ?_, ?_⟩
  · intro us c
    unfold skillMatchSpec
    cases hc : c.skills_required with
    | none =>
        unfold skill_match_score
        rw [hc]
        simp [requiredSkills, hc]
    | some sr =>
        rw [skill_match_score_of_some us hc]
        simp only [requiredSkills, hc, Option.getD_some]
        have ht : total_weight sr = sr.L1.length * 3 + sr.L2.length * 2 + sr.L3.length * 1 := by
          simp [total_weight, normSet]
        have hm : matched_weight us sr =
            matchedCount (normSet us) (normSet sr.L1) * 3 +
              matchedCount (normSet us) (normSet sr.L2) * 2 +
              matchedCount (normSet us) (normSet sr.L3) * 1 := rfl
        rw [← ht, ← hm]
        rcases Nat.eq_zero_or_pos (total_weight sr) with h0 | hpos
        · rw [h0]
          simp
        · rw [if_pos hpos, if_neg (Nat.pos_iff_ne_zero.mp hpos)]
  · intro us c h
    cases hc : c.skills_required with
    | none =>
        unfold skill_match_score
        rw [hc]
    | some sr =>
        rw [skill_match_score_of_some us hc]
        rw [if_neg]
        unfold declaredSkillCount at h
        simp only [requiredSkills, hc, Option.getD_some] at h
        unfold total_weight normSet
        simp only [List.length_map]
        omega
  · rw [@skill_match_score_of_some sampleCareer ⟨["a", "b", "c"], ["d", "e"], ["f"]⟩
      ["a", "b"] rfl]
    rw [if_pos (by decide)]
    rw [show matched_weight ["a", "b"] ⟨["a", "b", "c"], ["d", "e"], ["f"]⟩ = 6 from by decide,
        show total_weight ⟨["a", "b", "c"], ["d", "e"], ["f"]⟩ = 14 from by decide]
    norm_num

/-- Witness for C1: a career declaring zero skills scores 0.0. -/
theorem skill_match_spec_correct_witness :
    declaredSkillCount noSkillsCareer = 0 ∧ skill_match_score ["python"] noSkillsCareer = 0 :=
  ⟨by decide, skill_match_spec_correct.2.1 ["python"] noSkillsCareer (by decide)⟩

/-- C2: for every user skill list and every career, the readiness percentage
is 100 times held over required skills summed over the three tiers unweighted
(0.0 when zero skills are required), rounded to one decimal, and the priority
list is exactly the first 3 entries of the missing L1 list in declared order;
on the concrete scenario L1=[a,b,c], L2=[d,e], L3=[f] with user skills [a,b]
readiness is 33.3 and the priority list is [c]. -/
theorem readiness_spec_correct :
    (∀ (us : List String) (c : Career), (readiness_and_missing us c).readiness_pct =
      pyRound1 (if 0 < declaredSkillCount c
        then 100 * (haveCountSpec us c : ℚ) / (declaredSkillCount c : ℚ) else 0)) ∧
    (∀ (us : List String) (c : Career), (readiness_and_missing us c).priority_missing =
      (missingSpec us (requiredSkills c).L1).take 3) ∧
    (readiness_and_missing ["a", "b"] sampleCareer).readiness_pct = 33.3 ∧
    (readiness_and_missing ["a", "b"] sampleCareer).priority_missing = ["c"] := by
  refine ⟨?_, ?_, ?_, ?_⟩
  · intro us c
    rw [readiness_pct_def]
    have htr : total_required (requiredSkills c) = declaredSkillCount c := by
      simp [total_required, declaredSkillCount, normSet]
    have hth : total_have us (requiredSkills c) = haveCountSpec us c := by
      have h1 := matchedCount_add_missing (normSet us) (normSet (requiredSkills c).L1)
      have h2 := matchedCount_add_missing (normSet us) (normSet (requiredSkills c).L2)
      have h3 := matchedCount_add_missing (normSet us) (normSet (requiredSkills c).L3)
      unfold total_have haveCountSpec levelMissing
      omega
    rw [htr, hth]
    congr 1
    by_cases hd : 0 < declaredSkillCount c
    · rw [if_pos hd, if_pos hd]
      ring
    · rw [if_neg hd, if_neg hd]
  · intro us c
    rw [priority_missing_def]
    unfold levelMissing missingSpec missingList normSet
    congr 1
    apply List.filter_congr
    intro a _
    rw [contains_eq_decide_mem, decide_not]
  · rw [readiness_pct_def]
    rw [if_pos (by decide)]
    rw [show total_have ["a", "b"] (requiredSkills sampleCareer) = 2 from by decide,
        show total_required (requiredSkills sampleCareer) = 6 from by decide]
    unfold pyRound1 roundHalfEven
    norm_num
  · decide

/-- C8: adding one more skill to the user's skill list never decreases the
skill-match score. -/
theorem skill_match_monotone (us : List String) (s : String) (c : Career) :
    skill_match_score us c ≤ skill_match_score (us ++ [s]) c := by
  cases hc : c.skills_required with
  | none =>
      unfold skill_match_score
      rw [hc]
  | some sr =>
      rw [skill_match_score_of_some us hc, skill_match_score_of_some (us ++ [s]) hc]
      by_cases hpos : 0 < total_weight sr
      · rw [if_pos hpos, if_pos hpos]
        have hmono : matched_weight us sr ≤ matched_weight (us ++ [s]) sr := by
          unfold matched_weight
          have e : normSet (us ++ [s]) = normSet us ++ [pyNorm s] := by
            simp [normSet]
          rw [e]
          have m1 := matchedCount_mono_append (normSet us) (pyNorm s) (normSet sr.L1)
          have m2 := matchedCount_mono_append (normSet us) (pyNorm s) (normSet sr.L2)
          have m3 := matchedCount_mono_append (normSet us) (pyNorm s) (normSet sr.L3)
          omega
        have hq : (matched_weight us sr : ℚ) ≤ (matched_weight (us ++ [s]) sr : ℚ) := by
          exact_mod_cast hmono
        gcongr
      · rw [if_neg hpos, if_neg hpos]

/-- C10: every skill name in the per-tier missing lists and in the priority
list is drawn, in declared order, from the lowercased whitespace-trimmed
forms of the skills the career declares for that tier. -/
theorem missing_lists_normalized (us : List String) (c : Career) :
    List.Sublist (readiness_and_missing us c).missing_by_level.L1
      ((requiredSkills c).L1.map pyNorm) ∧
    List.Sublist (readiness_and_missing us c).missing_by_level.L2
      ((requiredSkills c).L2.map pyNorm) ∧
    List.Sublist (readiness_and_missing us c).missing_by_level.L3
      ((requiredSkills c).L3.map pyNorm) ∧
    List.Sublist (readiness_and_missing us c).priority_missing
      ((requiredSkills c).L1.map pyNorm) := by
  rw [missing_by_level_def, priority_missing_def]
  refine ⟨List.filter_sublist _, List.filter_sublist _, List.filter_sublist _, ?_⟩
  exact (List.take_sublist 3 _).trans (List.filter_sublist _)

/-- C3 (amended): for every user profile and every non-empty taxonomy,
`get_recommendations` scores every career with no early filtering, sorts
descending by the composite key (confidence, readiness) and returns
min(3, number of careers) items; an empty taxonomy instead raises HTTP 500
(see the counterexample). -/
theorem recommend_ranking (market : List (String × MarketInfo)) (profile : ProfileInput)
    (careers : List Career) (h : careers ≠ []) :
    ∃ ranked : List RecommendationItem,
      List.Perm ranked (careers.map (scoreCareer market profile)) ∧
      ranked.Pairwise keyGE ∧
      get_recommendations market profile careers = .ok (ranked.take 3) ∧
      (ranked.take 3).length = min 3 careers.length := by
  refine ⟨sortItemsDesc (careers.map (scoreCareer market profile)),
    sortItemsDesc_perm _, sortItemsDesc_pairwise _, ?_, ?_⟩
  · cases careers with
    | nil => exact absurd rfl h
    | cons a t => rfl
  · rw [List.length_take, (sortItemsDesc_perm _).length_eq, List.length_map]

/-- Witness for C3: a one-career taxonomy is scored, sorted and truncated. -/
theorem recommend_ranking_witness :
    ∃ ranked : List RecommendationItem,
      List.Perm ranked ([sampleCareer].map (scoreCareer [] sampleProfile)) ∧
      ranked.Pairwise keyGE ∧
      get_recommendations [] sampleProfile [sampleCareer] = .ok (ranked.take 3) ∧
      (ranked.take 3).length = min 3 [sampleCareer].length :=
  recommend_ranking [] sampleProfile [sampleCareer] (List.cons_ne_nil _ _)

/-- C3 counterexample: with an empty taxonomy the endpoint raises HTTP 500
instead of returning min(3, 0) = 0 items. -/
theorem recommend_empty_taxonomy_errors :
    get_recommendations [] sampleProfile [] =
      .error (.serverError "Career data not available") ∧
    get_recommendations [] sampleProfile [] ≠ .ok [] := by
  refine ⟨rfl, fun h => ?_⟩
  rw [show get_recommendations ([] : List (String × MarketInfo)) sampleProfile [] =
      Except.error (ApiError.serverError "Career data not available") from rfl] at h
  exact Except.noConfusion h

/-- C4 (amended): the estimated timeline of every recommendation item is a
deterministic step function of its readiness: at least 70 gives 3 months, at
least 40 gives 4 months, and anything lower gives 8 months (not 6 as the
claim stated). -/
theorem timeline_step_of_readiness (market : List (String × MarketInfo))
    (profile : ProfileInput) (career : Career) :
    (scoreCareer market profile career).estimated_timeline_months =
      (if 70 ≤ (scoreCareer market profile career).readiness_pct then 3
       else if 40 ≤ (scoreCareer market profile career).readiness_pct then 4 else 8) := rfl

/-- C4 counterexample: a user with no skills has readiness below 40 and the
item carries an 8-month timeline, not 6. -/
theorem timeline_low_readiness_eight :
    (scoreCareer [] sampleProfile sampleCareer).readiness_pct < 40 ∧
    (scoreCareer [] sampleProfile sampleCareer).estimated_timeline_months = 8 ∧
    (scoreCareer [] sampleProfile sampleCareer).estimated_timeline_months ≠ 6 := by
  have hr : (readiness_and_missing [] sampleCareer).readiness_pct = 0 := by
    rw [readiness_pct_def]
    rw [if_pos (by decide)]
    rw [show total_have [] (requiredSkills sampleCareer) = 0 from by decide]
    unfold pyRound1 roundHalfEven
    norm_num
  have hs : (scoreCareer [] sampleProfile sampleCareer).readiness_pct =
      (readiness_and_missing [] sampleCareer).readiness_pct := rfl
  have ht : (scoreCareer [] sampleProfile sampleCareer).estimated_timeline_months =
      (if 70 ≤ (readiness_and_missing [] sampleCareer).readiness_pct then 3
       else if 40 ≤ (readiness_and_missing [] sampleCareer).readiness_pct then 4 else 8) := rfl
  refine ⟨?_, ?_, ?_⟩
  · rw [hs, hr]
    norm_num
  · rw [ht, hr]
    norm_num
  · rw [ht, hr]
    norm_num

/-- C5 (amended): the market score is demand/10 clamped to [0,1]; for a
career with no market entry it defaults to 0.5 (demand 5.0), not 0.7. -/
theorem market_score_clamped_default (market : List (String × MarketInfo)) (cid : String) :
    0 ≤ market_score market cid ∧ market_score market cid ≤ 1 ∧
    (∀ (info : MarketInfo) (d : ℚ), marketFind market cid = some info →
      info.demand_score = some d → market_score market cid = max 0 (min 1 (d / 10))) ∧
    (marketFind market cid = none → market_score market cid = 1 / 2) := by
  refine ⟨?_, ?_, ?_, ?_⟩
  · exact le_max_left 0 _
  · exact max_le (by norm_num) (min_le_left 1 _)
  · intro info d h1 h2
    unfold market_score
    rw [h1]
    simp only [Option.getD_some]
    rw [h2]
    simp only [Option.getD_some]
  · intro h
    unfold market_score
    rw [h]
    simp only [Option.getD_none, Option.getD_some]
    rw [show ((5 : ℚ) / 10) = 1 / 2 by norm_num,
        min_eq_right (by norm_num : (1 : ℚ) / 2 ≤ 1),
        max_eq_right (by norm_num : (0 : ℚ) ≤ 1 / 2)]

/-- Witness for C5: a present demand of 8 is clamped from 0.8, and a career
with no market entry scores 0.5. -/
theorem market_score_clamped_default_witness :
    market_score [("data_analyst", ⟨some 8⟩)] "data_analyst" = max 0 (min 1 (8 / 10)) ∧
    market_score [] "ui_ux_designer" = 1 / 2 :=
  ⟨(market_score_clamped_default _ _).2.2.1 ⟨some 8⟩ 8 (by decide) rfl,
   (market_score_clamped_default _ _).2.2.2 rfl⟩

/-- C5 counterexample: with no market entry the score is 0.5, not the 0.7
the claim states. -/
theorem market_default_not_seven :
    market_score [] "data_analyst" = 1 / 2 ∧ market_score [] "data_analyst" ≠ 7 / 10 := by
  have h : market_score [] "data_analyst" = 1 / 2 := by
    show max 0 (min 1 ((5 : ℚ) / 10)) = 1 / 2
    rw [show ((5 : ℚ) / 10) = 1 / 2 by norm_num,
        min_eq_right (by norm_num : (1 : ℚ) / 2 ≤ 1),
        max_eq_right (by norm_num : (0 : ℚ) ≤ 1 / 2)]
  refine ⟨h, ?_⟩
  rw [h]
  norm_num

/-- C6 (amended): for every request with a known career id and a learning
style other than hands-on practice, the roadmap has exactly 8 week entries
and every week carries exactly 2 resources: free video and practice
placeholders on a zero budget, priced course and book placeholders otherwise,
with prices independent of the budget magnitude; the hands-on style instead
appends a third entry (see the counterexample). -/
theorem roadmap_resources_by_budget (careers : List Career) (req : RoadmapRequest)
    (hfound : (career_by_id careers req.career_id).isSome = true)
    (hstyle : req.learning_style ≠ "Hands-on practice") :
    ∃ resp, generate_roadmap careers req = .ok resp ∧
      resp.weeks.length = 8 ∧
      ∀ w ∈ resp.weeks,
        w.resources.length = 2 ∧
        w.resources = specBudgetResources req.budget_inr_per_month w.focus := by
  cases hc : career_by_id careers req.career_id with
  | none =>
      rw [hc] at hfound
      exact absurd hfound (by simp)
  | some career =>
      refine ⟨roadmapResponse career req, ?_, ?_, ?_⟩
      · unfold generate_roadmap
        rw [hc]
      · rw [roadmapResponse_weeks, buildWeeks_length, roadmap_templates_length]
      · intro w hw
        rw [roadmapResponse_weeks] at hw
        unfold buildWeeks at hw
        rcases List.mem_map.mp hw with ⟨p, _, rfl⟩
        refine ⟨?_, ?_⟩
        · show (generate_enhanced_resources p.2 req.budget_inr_per_month
            req.learning_style).length = 2
          rw [generate_enhanced_resources_of_other_style _ _ _ hstyle,
            specBudgetResources_length]
        · show generate_enhanced_resources p.2 req.budget_inr_per_month
              req.learning_style = specBudgetResources req.budget_inr_per_month p.2
          exact generate_enhanced_resources_of_other_style _ _ _ hstyle

/-- Witness for C6: a known career with budget 500 and the Videos style gets
8 weeks of exactly two priced resources each. -/
theorem roadmap_resources_by_budget_witness :
    ∃ resp, generate_roadmap [sampleCareer] paidReq = .ok resp ∧
      resp.weeks.length = 8 ∧
      ∀ w ∈ resp.weeks,
        w.resources.length = 2 ∧
        w.resources = specBudgetResources paidReq.budget_inr_per_month w.focus :=
  roadmap_resources_by_budget [sampleCareer] paidReq (by decide) (by decide)

/-- C6 counterexample: with the hands-on learning style every week carries 3
resources, so the resource count is not always exactly 2. -/
theorem roadmap_handson_three_resources :
    (generate_roadmap [sampleCareer] handsOnReq).toOption.map
        (fun resp => resp.weeks.map (fun w => w.resources.length)) =
      some [3, 3, 3, 3, 3, 3, 3, 3] ∧
    (3 : Nat) ≠ 2 := by
  constructor
  · decide
  · decide

/-- C7: for every request, gap and roadmap succeed exactly when the career id
is in the taxonomy, and fail with the not-found error exactly when it is
absent. -/
theorem gap_roadmap_not_found (careers : List Career) (greq : GapRequest)
    (rreq : RoadmapRequest) :
    ((analyze_skill_gap careers greq).isOk = true ↔ ∃ c ∈ careers, c.id = greq.career_id) ∧
    (analyze_skill_gap careers greq = .error (.notFound greq.career_id) ↔
      ¬ ∃ c ∈ careers, c.id = greq.career_id) ∧
    ((generate_roadmap careers rreq).isOk = true ↔ ∃ c ∈ careers, c.id = rreq.career_id) ∧
    (generate_roadmap careers rreq = .error (.notFound rreq.career_id) ↔
      ¬ ∃ c ∈ careers, c.id = rreq.career_id) := by
  refine ⟨?_, ?_, ?_, ?_⟩
  · rw [← career_by_id_isSome_iff]
    unfold analyze_skill_gap
    cases career_by_id careers greq.career_id <;> simp [Except.isOk, Except.toBool]
  · rw [← career_by_id_eq_none_iff]
    unfold analyze_skill_gap
    cases career_by_id careers greq.career_id <;> simp
  · rw [← career_by_id_isSome_iff]
    unfold generate_roadmap
    cases career_by_id careers rreq.career_id <;> simp [Except.isOk, Except.toBool]
  · rw [← career_by_id_eq_none_iff]
    unfold generate_roadmap
    cases career_by_id careers rreq.career_id <;> simp

/-- Witness for C7: an unknown id is rejected with not-found by both
endpoints, a known id is accepted by both. -/
theorem gap_roadmap_not_found_witness :
    analyze_skill_gap [sampleCareer] ⟨"zzz", []⟩ = .error (.notFound "zzz") ∧
    generate_roadmap [sampleCareer] ⟨"zzz", 5, 0, "Videos", []⟩ = .error (.notFound "zzz") ∧
    (analyze_skill_gap [sampleCareer] ⟨"x", []⟩).isOk = true ∧
    (generate_roadmap [sampleCareer] paidReq).isOk = true := by
  refine ⟨?_, ?_, ?_, ?_⟩
  · exact (gap_roadmap_not_found [sampleCareer] ⟨"zzz", []⟩
      ⟨"zzz", 5, 0, "Videos", []⟩).2.1.mpr (by decide)
  · exact (gap_roadmap_not_found [sampleCareer] ⟨"zzz", []⟩
      ⟨"zzz", 5, 0, "Videos", []⟩).2.2.2.mpr (by decide)
  · exact (gap_roadmap_not_found [sampleCareer] ⟨"x", []⟩ paidReq).1.mpr
      ⟨sampleCareer, by decide, by decide⟩
  · exact (gap_roadmap_not_found [sampleCareer] ⟨"x", []⟩ paidReq).2.2.1.mpr
      ⟨sampleCareer, by decide, by decide⟩

/-- C9: with the hands-on practice learning style every week of the roadmap
carries a third, free project resource after the two budget-dependent
entries. -/
theorem roadmap_handson_project (careers : List Career) (req : RoadmapRequest)
    (hfound : (career_by_id careers req.career_id).isSome = true)
    (hstyle : req.learning_style = "Hands-on practice") :
    ∃ resp, generate_roadmap careers req = .ok resp ∧
      ∀ w ∈ resp.weeks,
        w.resources.length = 3 ∧
        w.resources = specBudgetResources req.budget_inr_per_month w.focus ++
          [specProjectResource w.focus] := by
  cases hc : career_by_id careers req.career_id with
  | none =>
      rw [hc] at hfound
      exact absurd hfound (by simp)
  | some career =>
      refine ⟨roadmapResponse career req, ?_, ?_⟩
      · unfold generate_roadmap
        rw [hc]
      · intro w hw
        rw [roadmapResponse_weeks] at hw
        unfold buildWeeks at hw
        rcases List.mem_map.mp hw with ⟨p, _, rfl⟩
        have he : generate_enhanced_resources p.2 req.budget_inr_per_month
            req.learning_style =
            specBudgetResources req.budget_inr_per_month p.2 ++ [specProjectResource p.2] := by
          rw [hstyle]
          exact generate_enhanced_resources_of_handson _ _
        refine ⟨?_, he⟩
        show (generate_enhanced_resources p.2 req.budget_inr_per_month
          req.learning_style).length = 3
        rw [he, List.length_append, specBudgetResources_length]
        rfl

/-- Witness for C9: the hands-on request on a known career. -/
theorem roadmap_handson_project_witness :
    ∃ resp, generate_roadmap [sampleCareer] handsOnReq = .ok resp ∧
      ∀ w ∈ resp.weeks,
        w.resources.length = 3 ∧
        w.resources = specBudgetResources handsOnReq.budget_inr_per_month w.focus ++
          [specProjectResource w.focus] :=
  roadmap_handson_project [sampleCareer] handsOnReq (by decide) (by decide)

end SkillsAdvisor
